import Mathlib

/-
  Verification of `src/synthesize.py` (Amazon Polly text-to-speech pipeline).

  The program is modelled as a pure function of a `World`: the process
  environment, the content of the input file `speech.txt`, the behaviour of
  the Polly and S3 service calls, the outcome of the local file write, and
  whether the local output file vanishes externally before cleanup.  A run
  yields an exit code, a trace of file/network events, and whether
  `output.mp3` exists when the process terminates.
-/

deriving instance DecidableEq for Except

namespace Synthesize

/-- The three environment variables read by the program
(`S3_BUCKET_NAME`, `AWS_REGION`, `ENVIRONMENT`); `none` means unset. -/
structure Env where
  s3BucketName : Option String
  awsRegion : Option String
  environment : Option String
deriving DecidableEq

/-- Python truthiness test `not x` for an optional string:
true when the variable is unset or equal to the empty string. -/
def pyFalsyStr : Option String → Bool
  | none => true
  | some s => s == ""

/-- `validate_environment` (synthesize.py lines 12-27): reads
`S3_BUCKET_NAME` and `AWS_REGION` (default `us-east-1`); if the bucket name
is falsy it prints an error and calls `sys.exit(1)`, otherwise it returns
the pair `(bucket_name, aws_region)`. -/
def validate_environment (e : Env) : Except Nat (String × String) :=
  let bucket_name := e.s3BucketName
  let aws_region := e.awsRegion.getD "us-east-1"
  if pyFalsyStr bucket_name then
    Except.error 1
  else
    Except.ok (bucket_name.getD "", aws_region)

/-- What opening `speech.txt` can yield: the file's text content,
`FileNotFoundError`, or some other I/O or decoding exception. -/
inductive FileRead where
  | content (s : String)
  | notFound
  | ioError (msg : String)
deriving DecidableEq

/-- Python's `str.strip()` with no argument: remove leading and trailing
whitespace characters.  (Modelled over `Char.isWhitespace`; defined by
structural recursion on the character list so that it evaluates.) -/
def pyStrip (s : String) : String :=
  String.mk
    (((s.data.dropWhile Char.isWhitespace).reverse.dropWhile
        Char.isWhitespace).reverse)

/-- `read_text_file` (synthesize.py lines 29-55): reads the file, strips
whitespace; exits 1 if the stripped text is empty, if the file is not
found, or on any other exception; otherwise returns the stripped text. -/
def read_text_file (f : FileRead) : Except Nat String :=
  match f with
  | FileRead.content s =>
      let text := pyStrip s
      if text = "" then Except.error 1
      else Except.ok text
  | FileRead.notFound => Except.error 1
  | FileRead.ioError _ => Except.error 1

/-- The parameters of a `polly_client.synthesize_speech` request. -/
structure PollyRequest where
  text : String
  outputFormat : String
  voiceId : String
  engine : String
deriving DecidableEq

/-- Outcome of the Polly call: an exception, or a response whose
`AudioStream` field is present (`some` bytes) or absent (`none`). -/
inductive PollyResult where
  | exn (msg : String)
  | response (audioStream : Option (List Nat))
deriving DecidableEq

/-- Whether the Polly call returned a response carrying an audio stream. -/
def PollyResult.hasAudio : PollyResult → Bool
  | PollyResult.response (some _) => true
  | _ => false

/-- Outcome of writing the audio stream to the local output file. -/
inductive WriteResult where
  | ok
  | exn (msg : String)
deriving DecidableEq

/-- The parameters of an `s3_client.upload_file` call, including the
`ExtraArgs` content type and metadata. -/
structure S3Request where
  localFile : String
  bucketName : String
  s3Key : String
  awsRegion : String
  contentType : String
  metadata : List (String × String)
deriving DecidableEq

/-- Outcome of the S3 upload call. -/
inductive S3Result where
  | ok
  | exn (msg : String)
deriving DecidableEq

/-- The observable file and network operations a run can perform. -/
inductive Event where
  | fileRead (path : String)
  | pollyCall (req : PollyRequest)
  | fileWrite (path : String)
  | s3Upload (req : S3Request)
  | fileDelete (path : String)
deriving DecidableEq

/-- Recognizes the synthesis-request events in a trace. -/
def Event.isPollyCall : Event → Bool
  | Event.pollyCall _ => true
  | _ => false

/-- The request `synthesize_speech` issues for a given text
(synthesize.py lines 79-84): fixed `mp3` / `Joanna` / `neural`. -/
def pollyRequestFor (text : String) : PollyRequest :=
  { text := text, outputFormat := "mp3", voiceId := "Joanna", engine := "neural" }

/-- `synthesize_speech` (synthesize.py lines 57-102): issues one Polly
request; on a response with an `AudioStream`, writes it to `output_file`
and returns true; if the field is absent returns false; any exception
during the call or the write is caught and yields false.  Result:
(success flag, events performed, whether the output file was created —
`open(output_file, 'wb')` creates the file even if the write then fails). -/
def synthesize_speech (text output_file : String)
    (polly : PollyRequest → PollyResult) (writeRes : WriteResult) :
    Bool × List Event × Bool :=
  let req := pollyRequestFor text
  match polly req with
  | PollyResult.exn _ => (false, [Event.pollyCall req], false)
  | PollyResult.response none => (false, [Event.pollyCall req], false)
  | PollyResult.response (some _) =>
      match writeRes with
      | WriteResult.ok =>
          (true, [Event.pollyCall req, Event.fileWrite output_file], true)
      | WriteResult.exn _ =>
          (false, [Event.pollyCall req, Event.fileWrite output_file], true)

/-- The request `upload_to_s3` issues (synthesize.py lines 124-136):
content type `audio/mpeg` and the three fixed metadata tags. -/
def uploadRequestFor (local_file bucket_name s3_key aws_region : String) :
    S3Request :=
  { localFile := local_file, bucketName := bucket_name, s3Key := s3_key,
    awsRegion := aws_region, contentType := "audio/mpeg",
    metadata := [("source", "polly-pipeline"), ("voice", "Joanna"),
                 ("engine", "neural")] }

/-- `upload_to_s3` (synthesize.py lines 104-144): performs one upload call;
returns true on success, and catches any exception to return false.
Result: (success flag, events performed). -/
def upload_to_s3 (local_file bucket_name s3_key aws_region : String)
    (s3 : S3Request → S3Result) : Bool × List Event :=
  let req := uploadRequestFor local_file bucket_name s3_key aws_region
  match s3 req with
  | S3Result.ok => (true, [Event.s3Upload req])
  | S3Result.exn _ => (false, [Event.s3Upload req])

/-- The S3 object key computed by `main` (synthesize.py lines 161-167) from
the `ENVIRONMENT` variable, which defaults to `dev`. -/
def mainS3Key (environment_var : Option String) : String :=
  let environment := environment_var.getD "dev"
  if environment = "beta" then "polly-audio/beta.mp3"
  else if environment = "prod" then "polly-audio/prod.mp3"
  else "polly-audio/dev.mp3"

/-- Everything external that determines a run of the program: the process
environment, the state of `speech.txt`, the behaviour of the Polly and S3
services, the outcome of the local audio write, and whether `output.mp3`
disappears externally between the write and the cleanup step. -/
structure World where
  env : Env
  speechFile : FileRead
  polly : PollyRequest → PollyResult
  writeRes : WriteResult
  s3 : S3Request → S3Result
  vanishedBeforeCleanup : Bool

/-- The observable outcome of a run: exit code, trace of file/network
events in order, and whether `output.mp3` exists at process exit. -/
structure RunResult where
  exitCode : Nat
  events : List Event
  outputFileExists : Bool
deriving DecidableEq

/-- `main` (synthesize.py lines 146-200): validate → compute key → read →
synthesize → upload → cleanup, each failure exiting with code 1; the
cleanup deletes `output.mp3` only if it exists, then the process exits 0. -/
def main (w : World) : RunResult :=
  match validate_environment w.env with
  | Except.error c => { exitCode := c, events := [], outputFileExists := false }
  | Except.ok (bucket_name, aws_region) =>
    let input_file := "speech.txt"
    let output_file := "output.mp3"
    let s3_key := mainS3Key w.env.environment
    match read_text_file w.speechFile with
    | Except.error c =>
        { exitCode := c, events := [Event.fileRead input_file],
          outputFileExists := false }
    | Except.ok text =>
      let synth := synthesize_speech text output_file w.polly w.writeRes
      let eventsSoFar := Event.fileRead input_file :: synth.2.1
      let existsAfterSynth := synth.2.2 && !w.vanishedBeforeCleanup
      if synth.1 = false then
        { exitCode := 1, events := eventsSoFar,
          outputFileExists := existsAfterSynth }
      else
        let upl := upload_to_s3 output_file bucket_name s3_key aws_region w.s3
        let events2 := eventsSoFar ++ upl.2
        if upl.1 = false then
          { exitCode := 1, events := events2,
            outputFileExists := existsAfterSynth }
        else
          if existsAfterSynth then
            { exitCode := 0, events := events2 ++ [Event.fileDelete output_file],
              outputFileExists := false }
          else
            { exitCode := 0, events := events2, outputFileExists := false }

/-! ## Helper lemmas -/

/-- A set, non-empty `S3_BUCKET_NAME` makes validation succeed with the
bucket and the (defaulted) region. -/
lemma validate_ok_of (e : Env) (b : String)
    (hb : e.s3BucketName = some b) (hne : b ≠ "") :
    validate_environment e = Except.ok (b, e.awsRegion.getD "us-east-1") := by
  have hf : pyFalsyStr (some b) = false := by
    simp [pyFalsyStr, hne]
  simp [validate_environment, hb, hf]

/-- When the Polly response carries an audio stream and the file write
succeeds, `synthesize_speech` returns success with the full trace. -/
lemma synth_success (t o : String) (p : PollyRequest → PollyResult)
    (wr : WriteResult) (hp : (p (pollyRequestFor t)).hasAudio = true)
    (hw : wr = WriteResult.ok) :
    synthesize_speech t o p wr =
      (true, [Event.pollyCall (pollyRequestFor t), Event.fileWrite o], true) := by
  cases hq : p (pollyRequestFor t) with
  | exn m => rw [hq] at hp; simp [PollyResult.hasAudio] at hp
  | response os =>
    cases os with
    | none => rw [hq] at hp; simp [PollyResult.hasAudio] at hp
    | some bs => subst hw; simp [synthesize_speech, hq]

/-- If the Polly call yields no audio stream, or the file write fails,
`synthesize_speech` reports failure. -/
lemma synth_fst_false (t o : String) (p : PollyRequest → PollyResult)
    (wr : WriteResult)
    (hf : (p (pollyRequestFor t)).hasAudio = false ∨ wr ≠ WriteResult.ok) :
    (synthesize_speech t o p wr).1 = false := by
  cases hq : p (pollyRequestFor t) with
  | exn m => simp [synthesize_speech, hq]
  | response os =>
    cases os with
    | none => simp [synthesize_speech, hq]
    | some bs =>
      rcases hf with hf | hf
      · rw [hq] at hf; simp [PollyResult.hasAudio] at hf
      · cases wr with
        | ok => exact absurd rfl hf
        | exn m => simp [synthesize_speech, hq]

/-- The trace of `synthesize_speech` is the Polly call alone, or the Polly
call followed by the write of the output file. -/
lemma synth_events_shape (t o : String) (p : PollyRequest → PollyResult)
    (wr : WriteResult) :
    (synthesize_speech t o p wr).2.1 = [Event.pollyCall (pollyRequestFor t)] ∨
    (synthesize_speech t o p wr).2.1 =
      [Event.pollyCall (pollyRequestFor t), Event.fileWrite o] := by
  cases hq : p (pollyRequestFor t) with
  | exn m => left; simp [synthesize_speech, hq]
  | response os =>
    cases os with
    | none => left; simp [synthesize_speech, hq]
    | some bs => right; cases wr <;> simp [synthesize_speech, hq]

/-- If every S3 call succeeds, `upload_to_s3` returns success with the
single upload event. -/
lemma upload_ok (lf b k r : String) (s3 : S3Request → S3Result)
    (hs : ∀ q, s3 q = S3Result.ok) :
    upload_to_s3 lf b k r s3 =
      (true, [Event.s3Upload (uploadRequestFor lf b k r)]) := by
  simp [upload_to_s3, hs]

/-- If every S3 call raises, `upload_to_s3` returns failure with the
single upload event. -/
lemma upload_fail (lf b k r : String) (s3 : S3Request → S3Result)
    (hs : ∀ q, s3 q ≠ S3Result.ok) :
    upload_to_s3 lf b k r s3 =
      (false, [Event.s3Upload (uploadRequestFor lf b k r)]) := by
  cases hq : s3 (uploadRequestFor lf b k r) with
  | ok => exact absurd hq (hs _)
  | exn m => simp [upload_to_s3, hq]

/-! ## Claim theorems -/

/-- C1: the object key computed by `main` is `polly-audio/beta.mp3` for
`ENVIRONMENT=beta`, `polly-audio/prod.mp3` for `prod`, and
`polly-audio/dev.mp3` for `dev`, for an unset variable, and for any other
value. -/
theorem C1_s3_key (v : String) (hb : v ≠ "beta") (hp : v ≠ "prod") :
    mainS3Key (some "beta") = "polly-audio/beta.mp3" ∧
    mainS3Key (some "prod") = "polly-audio/prod.mp3" ∧
    mainS3Key (some "dev") = "polly-audio/dev.mp3" ∧
    mainS3Key none = "polly-audio/dev.mp3" ∧
    mainS3Key (some v) = "polly-audio/dev.mp3" := by
  refine ⟨rfl, rfl, rfl, rfl, ?_⟩
  simp [mainS3Key, hb, hp]

/-- C1 witness: instantiated at the unrecognized value `staging`. -/
theorem C1_s3_key_witness :
    mainS3Key (some "beta") = "polly-audio/beta.mp3" ∧
    mainS3Key (some "prod") = "polly-audio/prod.mp3" ∧
    mainS3Key (some "dev") = "polly-audio/dev.mp3" ∧
    mainS3Key none = "polly-audio/dev.mp3" ∧
    mainS3Key (some "staging") = "polly-audio/dev.mp3" :=
  C1_s3_key "staging" (by decide) (by decide)

/-- C2: with `S3_BUCKET_NAME` unset or empty, the run exits with code 1
having performed no file or network operation (empty event trace). -/
theorem C2_missing_bucket (w : World)
    (h : w.env.s3BucketName = none ∨ w.env.s3BucketName = some "") :
    (main w).exitCode = 1 ∧ (main w).events = [] := by
  have hv : validate_environment w.env = Except.error 1 := by
    rcases h with h | h <;> simp [validate_environment, pyFalsyStr, h]
  simp [main, hv]

/-- A world whose `S3_BUCKET_NAME` is unset. -/
def wNoBucket : World :=
  { env := ⟨none, none, none⟩, speechFile := FileRead.content "hello",
    polly := fun _ => PollyResult.exn "unreachable",
    writeRes := WriteResult.ok, s3 := fun _ => S3Result.ok,
    vanishedBeforeCleanup := false }

/-- C2 witness: instantiated at a world with no bucket configured. -/
theorem C2_missing_bucket_witness :
    (main wNoBucket).exitCode = 1 ∧ (main wNoBucket).events = [] :=
  C2_missing_bucket wNoBucket (Or.inl rfl)

/-- C7: with `S3_BUCKET_NAME` set and non-empty, `validate_environment`
returns the bucket together with `AWS_REGION` when that is set and
`us-east-1` otherwise. -/
theorem C7_validate (e : Env) (b : String)
    (hb : e.s3BucketName = some b) (hne : b ≠ "") :
    validate_environment e = Except.ok (b, e.awsRegion.getD "us-east-1") ∧
    (e.awsRegion = none → validate_environment e = Except.ok (b, "us-east-1")) ∧
    (∀ r, e.awsRegion = some r → validate_environment e = Except.ok (b, r)) := by
  have h := validate_ok_of e b hb hne
  refine ⟨h, ?_, ?_⟩
  · intro hr; rw [h, hr]; rfl
  · intro r hr; rw [h, hr]; rfl

/-- C7 witness: instantiated at a concrete environment with a region set. -/
theorem C7_validate_witness :
    validate_environment ⟨some "bkt", some "eu-west-1", none⟩ =
      Except.ok ("bkt", "eu-west-1") :=
  (C7_validate ⟨some "bkt", some "eu-west-1", none⟩ "bkt" rfl
    (by decide)).2.2 "eu-west-1" rfl

/-- C3: an existing input file whose content is empty or only whitespace
makes `read_text_file` fail with exit code 1, the run exits with code 1,
and no synthesis request is ever issued. -/
theorem C3_empty_file (w : World) (b s : String)
    (hb : w.env.s3BucketName = some b) (hne : b ≠ "")
    (hc : w.speechFile = FileRead.content s) (he : pyStrip s = "") :
    read_text_file w.speechFile = Except.error 1 ∧
    (main w).exitCode = 1 ∧
    ∀ q, Event.pollyCall q ∉ (main w).events := by
  have hr : read_text_file w.speechFile = Except.error 1 := by
    simp [read_text_file, hc, he]
  have hv := validate_ok_of w.env b hb hne
  refine ⟨hr, ?_, ?_⟩
  · simp [main, hv, hr]
  · intro q; simp [main, hv, hr]

/-- A world whose bucket is configured and whose input file holds only
whitespace. -/
def wEmptyFile : World :=
  { env := ⟨some "bkt", none, none⟩,
    speechFile := FileRead.content "  \n ",
    polly := fun _ => PollyResult.response (some [1]),
    writeRes := WriteResult.ok, s3 := fun _ => S3Result.ok,
    vanishedBeforeCleanup := false }

/-- C3 witness: instantiated at a whitespace-only input file. -/
theorem C3_empty_file_witness :
    read_text_file wEmptyFile.speechFile = Except.error 1 ∧
    (main wEmptyFile).exitCode = 1 ∧
    ∀ q, Event.pollyCall q ∉ (main wEmptyFile).events :=
  C3_empty_file wEmptyFile "bkt" "  \n " rfl (by decide) rfl (by decide)

/-- C4: if the Polly response lacks an audio stream (or the call raised),
or the output-file write fails, `synthesize_speech` returns false, the run
exits with code 1, and no upload is attempted. -/
theorem C4_synth_failure (w : World) (b r t : String)
    (hv : validate_environment w.env = Except.ok (b, r))
    (hr : read_text_file w.speechFile = Except.ok t)
    (hf : (w.polly (pollyRequestFor t)).hasAudio = false ∨
          w.writeRes ≠ WriteResult.ok) :
    (synthesize_speech t "output.mp3" w.polly w.writeRes).1 = false ∧
    (main w).exitCode = 1 ∧
    ∀ q, Event.s3Upload q ∉ (main w).events := by
  have h1 := synth_fst_false t "output.mp3" w.polly w.writeRes hf
  refine ⟨h1, ?_, ?_⟩
  · simp [main, hv, hr, h1]
  · intro q
    have h2 := synth_events_shape t "output.mp3" w.polly w.writeRes
    simp only [main, hv, hr, h1]
    rcases h2 with h2 | h2 <;> simp [h2]

/-- A world whose Polly response carries no `AudioStream` field. -/
def wNoAudio : World :=
  { env := ⟨some "bkt", none, none⟩,
    speechFile := FileRead.content "hello",
    polly := fun _ => PollyResult.response none,
    writeRes := WriteResult.ok, s3 := fun _ => S3Result.ok,
    vanishedBeforeCleanup := false }

/-- C4 witness: instantiated at a response missing the audio stream. -/
theorem C4_synth_failure_witness :
    (synthesize_speech "hello" "output.mp3" wNoAudio.polly wNoAudio.writeRes).1 = false ∧
    (main wNoAudio).exitCode = 1 ∧
    ∀ q, Event.s3Upload q ∉ (main wNoAudio).events :=
  C4_synth_failure wNoAudio "bkt" "us-east-1" "hello" (by decide) (by decide)
    (Or.inl rfl)

/-- C5: after a successful synthesis, a failing upload leaves the run at
exit code 1, performs no deletion, and (absent external interference)
leaves `output.mp3` on disk. -/
theorem C5_upload_failure (w : World) (b r t : String)
    (hv : validate_environment w.env = Except.ok (b, r))
    (hr : read_text_file w.speechFile = Except.ok t)
    (hp : (w.polly (pollyRequestFor t)).hasAudio = true)
    (hw : w.writeRes = WriteResult.ok)
    (hs : ∀ q, w.s3 q ≠ S3Result.ok) :
    (main w).exitCode = 1 ∧
    (∀ p, Event.fileDelete p ∉ (main w).events) ∧
    (w.vanishedBeforeCleanup = false → (main w).outputFileExists = true) := by
  have hsy := synth_success t "output.mp3" w.polly w.writeRes hp hw
  have hup := upload_fail "output.mp3" b (mainS3Key w.env.environment) r w.s3 hs
  refine ⟨?_, ?_, ?_⟩
  · simp [main, hv, hr, hsy, hup]
  · intro p; simp [main, hv, hr, hsy, hup]
  · intro hx; simp [main, hv, hr, hsy, hup, hx]

/-- A world in which everything up to the upload succeeds and every S3
call raises. -/
def wUploadFails : World :=
  { env := ⟨some "bkt", none, some "prod"⟩,
    speechFile := FileRead.content "Hello world",
    polly := fun _ => PollyResult.response (some [1]),
    writeRes := WriteResult.ok, s3 := fun _ => S3Result.exn "denied",
    vanishedBeforeCleanup := false }

/-- C5 witness: instantiated at a world whose S3 upload raises. -/
theorem C5_upload_failure_witness :
    (main wUploadFails).exitCode = 1 ∧
    (∀ p, Event.fileDelete p ∉ (main wUploadFails).events) ∧
    (wUploadFails.vanishedBeforeCleanup = false →
      (main wUploadFails).outputFileExists = true) :=
  C5_upload_failure wUploadFails "bkt" "us-east-1" "Hello world" (by decide)
    (by decide) rfl rfl (fun _ h => S3Result.noConfusion h)

/-- C6: when validation, read, synthesis and upload all succeed, the
cleanup step deletes `output.mp3`, it is absent at exit, and the run
exits with code 0. -/
theorem C6_full_success (w : World) (b r t : String)
    (hv : validate_environment w.env = Except.ok (b, r))
    (hr : read_text_file w.speechFile = Except.ok t)
    (hp : (w.polly (pollyRequestFor t)).hasAudio = true)
    (hw : w.writeRes = WriteResult.ok)
    (hs : ∀ q, w.s3 q = S3Result.ok)
    (hx : w.vanishedBeforeCleanup = false) :
    (main w).exitCode = 0 ∧
    (main w).outputFileExists = false ∧
    Event.fileDelete "output.mp3" ∈ (main w).events := by
  have hsy := synth_success t "output.mp3" w.polly w.writeRes hp hw
  have hup := upload_ok "output.mp3" b (mainS3Key w.env.environment) r w.s3 hs
  refine ⟨?_, ?_, ?_⟩ <;> simp [main, hv, hr, hsy, hup, hx]

/-- A world in which every stage succeeds. -/
def wSuccess : World :=
  { env := ⟨some "bkt", none, some "prod"⟩,
    speechFile := FileRead.content "Hello world",
    polly := fun _ => PollyResult.response (some [1]),
    writeRes := WriteResult.ok, s3 := fun _ => S3Result.ok,
    vanishedBeforeCleanup := false }

/-- C6 witness: instantiated at the fully successful world. -/
theorem C6_full_success_witness :
    (main wSuccess).exitCode = 0 ∧
    (main wSuccess).outputFileExists = false ∧
    Event.fileDelete "output.mp3" ∈ (main wSuccess).events :=
  C6_full_success wSuccess "bkt" "us-east-1" "Hello world" (by decide)
    (by decide) rfl rfl (fun _ => rfl) rfl

/-- Characterization of the event trace of `main` with respect to polly
calls: either validation fails and the trace is empty, or the read fails
and the trace is the file read alone, or the read yields `t` and the trace
is the file read followed by the single polly request for `t` and a
remainder containing no polly call. -/
lemma main_polly_trace (w : World) :
    ((∃ c, validate_environment w.env = Except.error c) ∧
      (main w).events = []) ∨
    ((∃ c, read_text_file w.speechFile = Except.error c) ∧
      (main w).events = [Event.fileRead "speech.txt"]) ∨
    (∃ t, read_text_file w.speechFile = Except.ok t ∧
      ∃ rest, (main w).events =
          Event.fileRead "speech.txt" ::
            Event.pollyCall (pollyRequestFor t) :: rest ∧
        (∀ q, Event.pollyCall q ∉ rest) ∧
        rest.filter Event.isPollyCall = []) := by
  cases hv : validate_environment w.env with
  | error c => exact Or.inl ⟨⟨c, rfl⟩, by simp [main, hv]⟩
  | ok pr =>
    obtain ⟨b, r⟩ := pr
    cases hr : read_text_file w.speechFile with
    | error c => exact Or.inr (Or.inl ⟨⟨c, rfl⟩, by simp [main, hv, hr]⟩)
    | ok t =>
      refine Or.inr (Or.inr ⟨t, rfl, ?_⟩)
      cases hq : w.polly (pollyRequestFor t) with
      | exn m =>
        have hs1 : synthesize_speech t "output.mp3" w.polly w.writeRes =
            (false, [Event.pollyCall (pollyRequestFor t)], false) := by
          simp [synthesize_speech, hq]
        exact ⟨[], by simp [main, hv, hr, hs1], by simp, rfl⟩
      | response os =>
        cases os with
        | none =>
          have hs1 : synthesize_speech t "output.mp3" w.polly w.writeRes =
              (false, [Event.pollyCall (pollyRequestFor t)], false) := by
            simp [synthesize_speech, hq]
          exact ⟨[], by simp [main, hv, hr, hs1], by simp, rfl⟩
        | some bs =>
          cases hwr : w.writeRes with
          | exn m =>
            have hs1 : synthesize_speech t "output.mp3" w.polly w.writeRes =
                (false, [Event.pollyCall (pollyRequestFor t),
                         Event.fileWrite "output.mp3"], true) := by
              simp [synthesize_speech, hq, hwr]
            refine ⟨[Event.fileWrite "output.mp3"],
              by simp [main, hv, hr, hs1], by simp, ?_⟩
            simp [Event.isPollyCall]
          | ok =>
            have hs1 : synthesize_speech t "output.mp3" w.polly w.writeRes =
                (true, [Event.pollyCall (pollyRequestFor t),
                        Event.fileWrite "output.mp3"], true) := by
              simp [synthesize_speech, hq, hwr]
            cases hs3 : w.s3 (uploadRequestFor "output.mp3" b
                (mainS3Key w.env.environment) r) with
            | exn m =>
              have hup : upload_to_s3 "output.mp3" b
                  (mainS3Key w.env.environment) r w.s3 =
                  (false, [Event.s3Upload (uploadRequestFor "output.mp3" b
                    (mainS3Key w.env.environment) r)]) := by
                simp [upload_to_s3, hs3]
              refine ⟨[Event.fileWrite "output.mp3",
                       Event.s3Upload (uploadRequestFor "output.mp3" b
                         (mainS3Key w.env.environment) r)],
                by simp [main, hv, hr, hs1, hup], by simp, ?_⟩
              simp [Event.isPollyCall]
            | ok =>
              have hup : upload_to_s3 "output.mp3" b
                  (mainS3Key w.env.environment) r w.s3 =
                  (true, [Event.s3Upload (uploadRequestFor "output.mp3" b
                    (mainS3Key w.env.environment) r)]) := by
                simp [upload_to_s3, hs3]
              cases hvb : w.vanishedBeforeCleanup with
              | true =>
                refine ⟨[Event.fileWrite "output.mp3",
                         Event.s3Upload (uploadRequestFor "output.mp3" b
                           (mainS3Key w.env.environment) r)],
                  by simp [main, hv, hr, hs1, hup, hvb], by simp, ?_⟩
                simp [Event.isPollyCall]
              | false =>
                refine ⟨[Event.fileWrite "output.mp3",
                         Event.s3Upload (uploadRequestFor "output.mp3" b
                           (mainS3Key w.env.environment) r),
                         Event.fileDelete "output.mp3"],
                  by simp [main, hv, hr, hs1, hup, hvb], by simp, ?_⟩
                simp [Event.isPollyCall]

/-- C8: every polly request in a run's trace carries output format `mp3`,
voice `Joanna`, engine `neural` and the text read from the input file; a
trace never holds more than one polly request; and a run that passes
validation and the read issues exactly one, for the read text. -/
theorem C8_one_polly_call (w : World) :
    (∀ q, Event.pollyCall q ∈ (main w).events →
        q.outputFormat = "mp3" ∧ q.voiceId = "Joanna" ∧ q.engine = "neural" ∧
        ∃ t, read_text_file w.speechFile = Except.ok t ∧
          q = pollyRequestFor t) ∧
    ((main w).events.filter Event.isPollyCall).length ≤ 1 ∧
    (∀ t, read_text_file w.speechFile = Except.ok t →
        (∃ b r, validate_environment w.env = Except.ok (b, r)) →
        (main w).events.filter Event.isPollyCall =
          [Event.pollyCall (pollyRequestFor t)]) := by
  rcases main_polly_trace w with ⟨⟨c, hc⟩, he⟩ | ⟨⟨c, hc⟩, he⟩ |
    ⟨t, ht, rest, he, hrest, hfil⟩
  · refine ⟨?_, ?_, ?_⟩
    · intro q hq; rw [he] at hq; simp at hq
    · rw [he]; simp
    · intro t hrt ⟨b, r, hbr⟩; rw [hbr] at hc; exact Except.noConfusion hc
  · refine ⟨?_, ?_, ?_⟩
    · intro q hq; rw [he] at hq; simp at hq
    · rw [he]; simp [Event.isPollyCall]
    · intro t hrt _; rw [hrt] at hc; exact Except.noConfusion hc
  · refine ⟨?_, ?_, ?_⟩
    · intro q hq
      rw [he] at hq
      simp at hq
      rcases hq with hq | hq
      · subst hq; exact ⟨rfl, rfl, rfl, t, ht, rfl⟩
      · exact absurd hq (hrest q)
    · rw [he]; simp [Event.isPollyCall, hfil]
    · intro t' hrt _
      rw [ht] at hrt
      injection hrt with htt
      subst htt
      rw [he]
      simp [Event.isPollyCall, hfil]

/-- C8 witness: the fully successful run issues exactly the one request
for the text `Hello world`. -/
theorem C8_one_polly_call_witness :
    (main wSuccess).events.filter Event.isPollyCall =
      [Event.pollyCall (pollyRequestFor "Hello world")] :=
  (C8_one_polly_call wSuccess).2.2 "Hello world" (by decide)
    ⟨"bkt", "us-east-1", by decide⟩

/-- C9: `upload_to_s3` performs exactly one upload, to the given bucket
and key, with content type `audio/mpeg` and the three fixed metadata tags;
it returns true exactly on success and false on any exception. -/
theorem C9_upload_contract (lf b k r : String) (s3 : S3Request → S3Result) :
    (upload_to_s3 lf b k r s3).2 =
      [Event.s3Upload (uploadRequestFor lf b k r)] ∧
    (uploadRequestFor lf b k r).localFile = lf ∧
    (uploadRequestFor lf b k r).bucketName = b ∧
    (uploadRequestFor lf b k r).s3Key = k ∧
    (uploadRequestFor lf b k r).awsRegion = r ∧
    (uploadRequestFor lf b k r).contentType = "audio/mpeg" ∧
    (uploadRequestFor lf b k r).metadata =
      [("source", "polly-pipeline"), ("voice", "Joanna"),
       ("engine", "neural")] ∧
    ((upload_to_s3 lf b k r s3).1 = true ↔
      s3 (uploadRequestFor lf b k r) = S3Result.ok) ∧
    (∀ m, s3 (uploadRequestFor lf b k r) = S3Result.exn m →
      (upload_to_s3 lf b k r s3).1 = false) := by
  cases hq : s3 (uploadRequestFor lf b k r) <;>
    (simp only [upload_to_s3, hq]; simp [uploadRequestFor])

/-- C9 witness: an upload whose S3 call raises returns false. -/
theorem C9_upload_contract_witness :
    (upload_to_s3 "output.mp3" "bkt" "polly-audio/dev.mp3" "us-east-1"
      (fun _ => S3Result.exn "boom")).1 = false :=
  (C9_upload_contract "output.mp3" "bkt" "polly-audio/dev.mp3" "us-east-1"
    (fun _ => S3Result.exn "boom")).2.2.2.2.2.2.2.2 "boom" rfl

/-- C10: the cleanup deletion is guarded by the existence check, so a run
whose upload succeeded but whose output file had already vanished performs
no deletion and still exits with code 0. -/
theorem C10_guarded_cleanup (w : World) (b r t : String)
    (hv : validate_environment w.env = Except.ok (b, r))
    (hr : read_text_file w.speechFile = Except.ok t)
    (hp : (w.polly (pollyRequestFor t)).hasAudio = true)
    (hw : w.writeRes = WriteResult.ok)
    (hs : ∀ q, w.s3 q = S3Result.ok)
    (hx : w.vanishedBeforeCleanup = true) :
    (main w).exitCode = 0 ∧
    ∀ p, Event.fileDelete p ∉ (main w).events := by
  have hsy := synth_success t "output.mp3" w.polly w.writeRes hp hw
  have hup := upload_ok "output.mp3" b (mainS3Key w.env.environment) r w.s3 hs
  refine ⟨?_, ?_⟩
  · simp [main, hv, hr, hsy, hup, hx]
  · intro p; simp [main, hv, hr, hsy, hup, hx]

/-- A world in which every stage succeeds but `output.mp3` disappears
before the cleanup step runs. -/
def wVanished : World :=
  { env := ⟨some "bkt", none, some "prod"⟩,
    speechFile := FileRead.content "Hello world",
    polly := fun _ => PollyResult.response (some [1]),
    writeRes := WriteResult.ok, s3 := fun _ => S3Result.ok,
    vanishedBeforeCleanup := true }

/-- C10 witness: instantiated at the vanished-file world. -/
theorem C10_guarded_cleanup_witness :
    (main wVanished).exitCode = 0 ∧
    ∀ p, Event.fileDelete p ∉ (main wVanished).events :=
  C10_guarded_cleanup wVanished "bkt" "us-east-1" "Hello world" (by decide)
    (by decide) rfl rfl (fun _ => rfl) rfl

end Synthesize
